import Mathlib

/-!
Verification development for the entity layer of the sts network-simulation
test harness (src/sts/entities.py).  The Python source is shallowly embedded:
mutable attributes become explicit state records, Python dicts become
association lists with last-write-wins update, raised exceptions become
`Except`/`Option PyErr` results, and logging/close side effects become an
explicit effect trace.
-/

namespace Sts

/-- Python exceptions that the embedded code can raise. -/
inductive PyErr where
  | valueError
  | keyError
  | typeError
  | assertionError
  | ioError
deriving DecidableEq

/-! ### Python dict model

`uuid2connection` and switch port tables are Python dicts.  A dict is an
insertion-ordered association list; assignment `d[k] = v` updates the entry in
place when the key is present and appends otherwise; `k in d` is key
membership; `d[k]` reads the stored value. -/

namespace PyDict

/-- Python dict assignment `d[k] = v`: overwrite in place, else append. -/
def set {α β : Type} [DecidableEq α] : List (α × β) → α → β → List (α × β)
  | [], k, v => [(k, v)]
  | (k', v') :: rest, k, v =>
    if k' = k then (k, v) :: rest else (k', v') :: set rest k v

/-- Python dict read `d[k]`, `none` when the key is absent (KeyError case). -/
def get? {α β : Type} [DecidableEq α] : List (α × β) → α → Option β
  | [], _ => none
  | (k', v') :: rest, k => if k' = k then some v' else get? rest k

/-- Python membership test `k in d`. -/
def mem {α β : Type} [DecidableEq α] (d : List (α × β)) (k : α) : Bool :=
  (get? d k).isSome

theorem get?_set_self {α β : Type} [DecidableEq α] (d : List (α × β)) (k : α) (v : β) :
    get? (set d k v) k = some v := by
  induction d with
  | nil => simp [set, get?]
  | cons hd tl ih =>
    obtain ⟨k', v'⟩ := hd
    by_cases h : k' = k
    · simp [set, get?, h]
    · simp [set, get?, h, ih]

theorem mem_set_self {α β : Type} [DecidableEq α] (d : List (α × β)) (k : α) (v : β) :
    mem (set d k v) k = true := by
  simp [mem, get?_set_self]

theorem mem_set_of_mem {α β : Type} [DecidableEq α] (d : List (α × β)) (k k' : α) (v : β)
    (h : mem d k' = true) : mem (set d k v) k' = true := by
  induction d with
  | nil => simp [mem, get?] at h
  | cons hd tl ih =>
    obtain ⟨ka, va⟩ := hd
    by_cases hk : ka = k
    · subst hk
      by_cases hk' : ka = k'
      · simp [set, mem, get?, hk']
      · simp [mem, get?, hk'] at h
        simp [set, mem, get?, hk', h]
    · by_cases hk' : ka = k'
      · subst hk'
        simp [set, hk, mem, get?]
      · simp [mem, get?, hk'] at h
        simpa [set, hk, mem, get?, hk'] using ih h

end PyDict

/-! ### FuzzSoftwareSwitch -/

/-- A controller endpoint descriptor (an element of `self.controller_info`);
its internal structure is irrelevant to the switch, which only hands it to the
io-worker factory. -/
abbrev ControllerInfo := Nat

/-- A controller peer address: the `(ip, port)` pair returned by
`io_worker.socket.getpeername()`, used as the connection lookup key. -/
abbrev Peer := Nat × Nat

/-- A live controller connection object, identified by a fresh id (the
protocol engine allocates a new `ControllerConnection` per io-worker). -/
abbrev Conn := Nat

/-- A low-level io-worker as returned by `create_io_worker`; the switch only
uses its socket's peer name. -/
structure IOWorker where
  peername : Peer
deriving DecidableEq

/-- The behaviour of the injected `create_io_worker` function during one call
of `connect()`.  The factory performs real I/O, so successive `connect()`
calls may observe different outcomes; each call is therefore parameterised by
the pure function describing the environment during that call.  Errors from
the factory propagate (spec section 4.1). -/
abbrev IOWorkerFactory := ControllerInfo → Except PyErr IOWorker

/-- Mutable state of a `FuzzSoftwareSwitch`:
`failed`, the `uuid2connection` dict (peer address to connection), the
underlying engine's `connections` list (appended to by `set_io_worker`,
cleared by `fail`), and the ordered `controller_info` list.  `nextConnId`
models the allocation of fresh `ControllerConnection` objects. -/
structure SwitchState where
  failed : Bool
  uuid2connection : List (Peer × Conn)
  connections : List Conn
  controller_info : List ControllerInfo
  nextConnId : Nat
deriving DecidableEq

/-- Switch state right after `FuzzSoftwareSwitch.__init__`: not failed, empty
connection dict, no controller info, no live connections. -/
def initSwitch : SwitchState :=
  { failed := false, uuid2connection := [], connections := [],
    controller_info := [], nextConnId := 0 }

/-- Model of the external protocol engine's `set_io_worker` hookpoint
(spec section 6): it wraps the io-worker in a fresh `ControllerConnection`,
records it in the engine's `connections` list, and returns it. -/
def set_io_worker (s : SwitchState) (_w : IOWorker) : SwitchState × Conn :=
  let c := s.nextConnId
  ({ s with connections := s.connections ++ [c], nextConnId := c + 1 }, c)

/-- `FuzzSoftwareSwitch.add_controller_info`: append an endpoint descriptor. -/
def add_controller_info (s : SwitchState) (info : ControllerInfo) : SwitchState :=
  { s with controller_info := s.controller_info ++ [info] }

/-- One successful iteration of the `connect()` loop body: the connection
returned by `set_io_worker` (the error handler installed on it is a mutation
of the connection object itself, not of switch state) is assigned into the
dict, `uuid2connection[io_worker.socket.getpeername()] = conn`.  Note: the
dict is updated in place, never cleared. -/
def connectAdd (s : SwitchState) (w : IOWorker) : SwitchState :=
  let sc := set_io_worker s w
  { sc.1 with
    uuid2connection := PyDict.set sc.1.uuid2connection w.peername sc.2 }

/-- The loop of `FuzzSoftwareSwitch.connect` over the remaining
`controller_info` entries.  A factory error aborts the loop and propagates,
keeping the mutations already made by earlier iterations. -/
def connectLoop (f : IOWorkerFactory) : SwitchState → List ControllerInfo →
    SwitchState × Option PyErr
  | s, [] => (s, none)
  | s, info :: rest =>
    match f info with
    | Except.error e => (s, some e)
    | Except.ok w => connectLoop f (connectAdd s w) rest

/-- `FuzzSoftwareSwitch.connect`: iterate over the registered controller
endpoint descriptors. -/
def connect (f : IOWorkerFactory) (s : SwitchState) : SwitchState × Option PyErr :=
  connectLoop f s s.controller_info

/-- `FuzzSoftwareSwitch.get_connection`: raise `ValueError` when the peer id
is not a key of `uuid2connection`, otherwise return the stored connection. -/
def get_connection (s : SwitchState) (uuid : Peer) : Except PyErr Conn :=
  if PyDict.mem s.uuid2connection uuid = false then Except.error PyErr.valueError
  else
    match PyDict.get? s.uuid2connection uuid with
    | some c => Except.ok c
    | none => Except.error PyErr.keyError

/-- Observable side effects of `fail`/`recover` (log warnings and connection
closes). -/
inductive Effect where
  | warnAlreadyFailed
  | warnAlreadyUp
  | closeConn (c : Conn)
deriving DecidableEq

/-- `FuzzSoftwareSwitch.fail`: when already failed, log a warning and return;
otherwise set `failed = True`, close every connection in `self.connections`,
and set `self.connections = []`.  The `uuid2connection` dict is not touched. -/
def fail (s : SwitchState) : SwitchState × List Effect :=
  if s.failed then (s, [Effect.warnAlreadyFailed])
  else ({ s with failed := true, connections := [] },
        s.connections.map Effect.closeConn)

/-- `FuzzSoftwareSwitch.recover`: when not failed, log a warning and return;
otherwise run `connect()` (whose error, if any, propagates before
`self.failed = False` is reached) and then clear `failed`. -/
def recover (f : IOWorkerFactory) (s : SwitchState) :
    SwitchState × Option PyErr × List Effect :=
  if s.failed = false then (s, none, [Effect.warnAlreadyUp])
  else
    match connect f s with
    | (s1, some e) => (s1, some e, [])
    | (s1, none) => ({ s1 with failed := false }, none, [])

theorem connectLoop_failed (f : IOWorkerFactory) (infos : List ControllerInfo)
    (s : SwitchState) : (connectLoop f s infos).1.failed = s.failed := by
  induction infos generalizing s with
  | nil => rfl
  | cons info rest ih =>
    simp only [connectLoop]
    cases f info with
    | error e => rfl
    | ok w => simpa [connectAdd, set_io_worker] using ih _

/-- `connect` never writes the `failed` flag. -/
theorem connect_failed (f : IOWorkerFactory) (s : SwitchState) :
    (connect f s).1.failed = s.failed :=
  connectLoop_failed f s.controller_info s

theorem connectAdd_uuid2connection (s : SwitchState) (w : IOWorker) :
    (connectAdd s w).uuid2connection =
      PyDict.set s.uuid2connection w.peername s.nextConnId := rfl

theorem connectLoop_mem_mono (f : IOWorkerFactory) (infos : List ControllerInfo)
    (s : SwitchState) (k : Peer) (h : PyDict.mem s.uuid2connection k = true) :
    PyDict.mem (connectLoop f s infos).1.uuid2connection k = true := by
  induction infos generalizing s with
  | nil => exact h
  | cons info rest ih =>
    simp only [connectLoop]
    rcases hf : f info with e | w
    · exact h
    · exact ih _ (by
        rw [connectAdd_uuid2connection]
        exact PyDict.mem_set_of_mem _ _ _ _ h)

theorem connectLoop_ok_adds (f : IOWorkerFactory) (infos : List ControllerInfo)
    (s : SwitchState) (h : (connectLoop f s infos).2 = none) :
    ∀ info ∈ infos, ∃ w, f info = Except.ok w ∧
      PyDict.mem (connectLoop f s infos).1.uuid2connection w.peername = true := by
  induction infos generalizing s with
  | nil => intro info hinfo; cases hinfo
  | cons i rest ih =>
    intro info hinfo
    rcases hf : f i with e | w
    · exfalso
      simp [connectLoop, hf] at h
    · have hred : connectLoop f s (i :: rest) = connectLoop f (connectAdd s w) rest := by
        simp [connectLoop, hf]
      rw [hred] at h ⊢
      rcases List.mem_cons.mp hinfo with heq | hmem
      · subst heq
        refine ⟨w, hf, ?_⟩
        exact connectLoop_mem_mono f rest _ _ (by
          rw [connectAdd_uuid2connection]
          exact PyDict.mem_set_self _ _ _)
      · exact ih _ h info hmem

/-- The invariant that actually holds of the code: a failed switch has an
empty `connections` list (the engine-level list cleared by `fail`).  The
`uuid2connection` dict is NOT emptied by `fail`. -/
def ConnInv (s : SwitchState) : Prop := s.failed = true → s.connections = []

/-- Concrete io-worker factory behaviours for witnesses and counterexamples. -/
def fOne : IOWorkerFactory := fun _ => Except.ok ⟨(10, 6633)⟩

def fTwo : IOWorkerFactory := fun _ => Except.ok ⟨(20, 6633)⟩

def fErr : IOWorkerFactory := fun _ => Except.error PyErr.ioError

/-- A switch that registered one controller endpoint and connected once:
`uuid2connection` holds one entry keyed by peer `(10, 6633)`. -/
def sConnected : SwitchState := (connect fOne (add_controller_info initSwitch 7)).1

/-- Claim C1, counterexample: after a reachable `connect()` followed by
`fail()`, the failed flag is true yet the peer-address-to-connection dict
`uuid2connection` still holds the connection entry — `fail` clears only the
engine-level `connections` list, so the claimed invariant is false. -/
theorem fail_keeps_uuid2connection_cex :
    (fail sConnected).1.failed = true
    ∧ (fail sConnected).1.uuid2connection = [((10, 6633), 0)]
    ∧ (fail sConnected).1.connections = [] := by
  refine ⟨by decide, by decide, by decide⟩

/-- Claim C1, amended: whenever `failed` is true the engine-level
`connections` list (not the `uuid2connection` dict) is empty, and this is
preserved by `fail`, by `connect` called when not failed, and by `recover`
runs in which `connect` raised no error. -/
theorem conninv_preserved (f : IOWorkerFactory) (s : SwitchState) :
    (ConnInv s → ConnInv (fail s).1)
    ∧ (s.failed = false → ConnInv (connect f s).1)
    ∧ ((recover f s).2.1 = none → ConnInv (recover f s).1) := by
  refine ⟨?_, ?_, ?_⟩
  · intro h
    by_cases hs : s.failed = true
    · simpa [fail, hs] using h
    · intro _
      simp [fail, hs]
  · intro hs hf
    rw [connect_failed f s, hs] at hf
    cases hf
  · intro hnone
    by_cases hs : s.failed = false
    · have hr : recover f s = (s, none, [Effect.warnAlreadyUp]) := by
        simp [recover, hs]
      rw [hr]
      intro hf
      rw [hs] at hf
      cases hf
    · rcases hc : connect f s with ⟨s1, e1⟩
      cases e1 with
      | none =>
        have hr : recover f s = ({ s1 with failed := false }, none, []) := by
          simp [recover, hs, hc]
        rw [hr]
        intro hf
        simp at hf
      | some e =>
        have hr : recover f s = (s1, some e, []) := by
          simp [recover, hs, hc]
        rw [hr] at hnone
        simp at hnone

/-- A switch already failed with its connection list empty. -/
def sFailedWit : SwitchState :=
  { failed := true, uuid2connection := [], connections := [],
    controller_info := [], nextConnId := 0 }

/-- Witness for `conninv_preserved` at concrete inputs. -/
theorem conninv_preserved_witness :
    ConnInv (fail sFailedWit).1
    ∧ ConnInv (connect fOne initSwitch).1
    ∧ ConnInv (recover fOne sFailedWit).1 :=
  ⟨(conninv_preserved fOne sFailedWit).1 (fun _ => rfl),
   (conninv_preserved fOne initSwitch).2.1 rfl,
   (conninv_preserved fOne sFailedWit).2.2 (by decide)⟩

/-- Claim C2, counterexample: a switch connects once (its only registered
endpoint yielding peer `(10, 6633)`); a later `connect()` call, during which
the factory yields peer `(20, 6633)` for that endpoint, leaves the old
`(10, 6633)` entry in `uuid2connection`.  The mapping after the call is
`[((10,6633),0), ((20,6633),1)]`: the entry from before the call survives,
so the call merges rather than fully replacing the mapping. -/
theorem connect_merges_cex :
    PyDict.mem sConnected.uuid2connection (10, 6633) = true
    ∧ sConnected.controller_info = [7]
    ∧ fTwo 7 = Except.ok ⟨(20, 6633)⟩
    ∧ (connect fTwo sConnected).1.uuid2connection =
        [((10, 6633), 0), ((20, 6633), 1)] := by
  refine ⟨by decide, by decide, rfl, by decide⟩

/-- Claim C2, amended: a successful `connect()` updates `uuid2connection` in
place — every key present before the call is still present after it, and for
each currently registered endpoint the entry keyed by that endpoint's peer
address has been inserted or overwritten.  The dict is merged, not rebuilt. -/
theorem connect_upserts (f : IOWorkerFactory) (s : SwitchState)
    (h : (connect f s).2 = none) :
    (∀ k, PyDict.mem s.uuid2connection k = true →
        PyDict.mem (connect f s).1.uuid2connection k = true)
    ∧ ∀ info ∈ s.controller_info, ∃ w, f info = Except.ok w ∧
        PyDict.mem (connect f s).1.uuid2connection w.peername = true :=
  ⟨fun k hk => connectLoop_mem_mono f s.controller_info s k hk,
   connectLoop_ok_adds f s.controller_info s h⟩

/-- A switch holding a stale entry keyed `(9, 9)` and one registered
endpoint. -/
def sMergeWit : SwitchState :=
  { failed := false, uuid2connection := [((9, 9), 5)], connections := [],
    controller_info := [7], nextConnId := 6 }

/-- Witness for `connect_upserts` at concrete inputs: the pre-existing
`(9, 9)` entry survives the successful call. -/
theorem connect_upserts_witness :
    PyDict.mem (connect fOne sMergeWit).1.uuid2connection (9, 9) = true :=
  (connect_upserts fOne sMergeWit (by decide)).1 (9, 9) (by decide)

/-- Claim C4: `get_connection` raises `ValueError` exactly when the peer id
is not a key of `uuid2connection`, and otherwise returns precisely the stored
connection (the model stores total `Conn` values, so no null is ever
returned). -/
theorem get_connection_ok_or_error (s : SwitchState) (uuid : Peer) :
    (PyDict.mem s.uuid2connection uuid = false →
      get_connection s uuid = Except.error PyErr.valueError)
    ∧ ∀ c, PyDict.get? s.uuid2connection uuid = some c →
        get_connection s uuid = Except.ok c := by
  constructor
  · intro h
    simp [get_connection, h]
  · intro c h
    have hm : PyDict.mem s.uuid2connection uuid = true := by
      simp [PyDict.mem, h]
    simp [get_connection, hm, h]

/-- A switch with one live indexed connection, for lookups. -/
def sLookupWit : SwitchState :=
  { failed := false, uuid2connection := [((1, 2), 3)], connections := [3],
    controller_info := [], nextConnId := 4 }

/-- Witness for `get_connection_ok_or_error` at concrete inputs. -/
theorem get_connection_witness :
    get_connection sLookupWit (1, 2) = Except.ok 3
    ∧ get_connection sLookupWit (5, 5) = Except.error PyErr.valueError :=
  ⟨(get_connection_ok_or_error sLookupWit (1, 2)).2 3 (by decide),
   (get_connection_ok_or_error sLookupWit (5, 5)).1 (by decide)⟩

/-- Claim C5: starting from any switch satisfying the connection invariant,
`fail` is idempotent — a second `fail` returns the first call's state
unchanged and its only effect is the already-failed warning; after the first
call the failed flag is set and the connection list is empty, and only a
first call on a live switch emits the close effects. -/
theorem fail_idempotent (s : SwitchState) (h : ConnInv s) :
    fail (fail s).1 = ((fail s).1, [Effect.warnAlreadyFailed])
    ∧ (fail s).1.failed = true
    ∧ (fail s).1.connections = []
    ∧ (s.failed = false → (fail s).2 = s.connections.map Effect.closeConn) := by
  by_cases hs : s.failed = true
  · have hc : s.connections = [] := h hs
    refine ⟨by simp [fail, hs], by simp [fail, hs], by simp [fail, hs, hc], ?_⟩
    intro hfalse
    rw [hs] at hfalse
    cases hfalse
  · refine ⟨by simp [fail, hs], by simp [fail, hs], by simp [fail, hs], ?_⟩
    intro _
    simp [fail, hs]

/-- Witness for `fail_idempotent` at a concrete input. -/
theorem fail_idempotent_witness :
    fail (fail sConnected).1 = ((fail sConnected).1, [Effect.warnAlreadyFailed])
    ∧ (fail sConnected).1.failed = true
    ∧ (fail sConnected).1.connections = []
    ∧ (sConnected.failed = false →
        (fail sConnected).2 = sConnected.connections.map Effect.closeConn) :=
  fail_idempotent sConnected (fun h => absurd h (by decide))

/-- Claim C10: for a failed switch, `recover` propagates `connect`'s error
result unchanged; when `connect` errors the state is exactly the state
`connect` left behind, whose failed flag is still true, and only when
`connect` returns without error is the failed flag cleared. -/
theorem recover_error_keeps_failed (f : IOWorkerFactory) (s : SwitchState)
    (h : s.failed = true) :
    (recover f s).2.1 = (connect f s).2
    ∧ ((connect f s).2 ≠ none →
        (recover f s).1 = (connect f s).1 ∧ (recover f s).1.failed = true)
    ∧ ((connect f s).2 = none → (recover f s).1.failed = false) := by
  have hfs : (connect f s).1.failed = s.failed := connect_failed f s
  rcases hc : connect f s with ⟨s1, e1⟩
  rw [hc] at hfs
  cases e1 with
  | none =>
    have hr : recover f s = ({ s1 with failed := false }, none, []) := by
      simp [recover, h, hc]
    rw [hr]
    refine ⟨rfl, ?_, fun _ => rfl⟩
    intro hne
    exact absurd rfl hne
  | some e =>
    have hr : recover f s = (s1, some e, []) := by
      simp [recover, h, hc]
    rw [hr]
    refine ⟨rfl, ?_, ?_⟩
    · intro _
      exact ⟨rfl, by rw [hfs, h]⟩
    · intro hfalse
      cases hfalse

/-- A failed switch with one registered endpoint, used with the failing
factory. -/
def sRecWit : SwitchState :=
  { failed := true, uuid2connection := [], connections := [],
    controller_info := [0], nextConnId := 0 }

/-- Witness for `recover_error_keeps_failed` at a concrete input where the
factory refuses the connection. -/
theorem recover_error_witness :
    (recover fErr sRecWit).2.1 = (connect fErr sRecWit).2
    ∧ (recover fErr sRecWit).1 = (connect fErr sRecWit).1
    ∧ (recover fErr sRecWit).1.failed = true :=
  ⟨(recover_error_keeps_failed fErr sRecWit rfl).1,
   ((recover_error_keeps_failed fErr sRecWit rfl).2.1 (by decide)).1,
   ((recover_error_keeps_failed fErr sRecWit rfl).2.1 (by decide)).2⟩

/-! ### ShimHandler (message-interception pipeline) -/

/-- An OpenFlow control-plane message (an `ofp_header` payload). -/
abbrev OfpMessage := Nat

/-- Observable actions of inbound handlers and the shim: abstract internal
steps of the original handler, and raised `CpMessageEvent`s carrying the
connections used and the message. -/
inductive Action where
  | handlerStep (tag : Nat)
  | cpMessageEvent (connections_used : List Conn) (message : OfpMessage)
deriving DecidableEq

/-- An inbound ofp receive handler.  `NXSoftwareSwitch` inserts the
connection as the first parameter; the message is the second.  A handler's
behaviour is the trace of actions it performs. -/
abbrev OfpHandler := Conn → OfpMessage → List Action

/-- The shim object interposed on each ofp receive handler;
`ShimHandler.__init__(self, original_handler, parent_switch)` requires both
the handler and the parent switch. -/
structure ShimHandler where
  original_handler : OfpHandler
  parent_switch : Nat

/-- `ShimHandler.__call__`: invoke the original handler first, and only after
it returns raise one `CpMessageEvent` on the parent switch, carrying the
single-element connection list `[args[0]]` and the message `args[1]` (the
argument-type assertions are enforced by the embedding's types). -/
def ShimHandler.call (sh : ShimHandler) (conn : Conn) (message : OfpMessage) :
    List Action :=
  sh.original_handler conn message ++ [Action.cpMessageEvent [conn] message]

/-- Number of arguments `ShimHandler.__init__` requires beyond `self`. -/
def shimHandlerInitArity : Nat := 2

/-- Number of arguments supplied at the wrap site in
`FuzzSoftwareSwitch.__init__` (entities.py line 66: `ShimHandler(handler)` —
no parent switch is passed). -/
def shimWrapSiteArity : Nat := 1

/-- Python call semantics for constructing a `ShimHandler`: supplying a
number of positional arguments different from the arity of `__init__` raises
`TypeError` before the body runs; with both arguments supplied the shim
object is produced. -/
def callShimHandlerInit (supplied : Nat) (h : OfpHandler) (parent : Option Nat) :
    Except PyErr ShimHandler :=
  if supplied = shimHandlerInitArity then
    match parent with
    | some p => Except.ok { original_handler := h, parent_switch := p }
    | none => Except.error PyErr.typeError
  else Except.error PyErr.typeError

/-- The handler-wrapping dict comprehension in `FuzzSoftwareSwitch.__init__`
(entities.py lines 64-68): every original handler of `self.ofp_handlers` is
replaced by the result of the call `ShimHandler(handler)`, which supplies
`shimWrapSiteArity` positional arguments and no parent switch. -/
def wrapOfpHandlers : List (Nat × OfpHandler) → Except PyErr (List (Nat × ShimHandler))
  | [] => Except.ok []
  | (key, h) :: rest =>
    match callShimHandlerInit shimWrapSiteArity h none with
    | Except.error e => Except.error e
    | Except.ok sh =>
      match wrapOfpHandlers rest with
      | Except.error e => Except.error e
      | Except.ok tail => Except.ok ((key, sh) :: tail)

/-- Claim C3 (code-bug evidence): a correctly constructed shim does run the
original handler and afterwards publish exactly one control-plane-message
event carrying `[conn]` and the message — but the wrap site in
`FuzzSoftwareSwitch.__init__` passes a single argument to a two-argument
`ShimHandler.__init__`, so wrapping any nonempty handler table raises
`TypeError` and no wrapped handler is ever produced at construction. -/
theorem shim_wrap_raises_typeerror :
    (∀ (sh : ShimHandler) (conn : Conn) (message : OfpMessage),
      ShimHandler.call sh conn message =
        sh.original_handler conn message ++ [Action.cpMessageEvent [conn] message])
    ∧ wrapOfpHandlers [(10, fun _ _ => [Action.handlerStep 0])] =
        Except.error PyErr.typeError :=
  ⟨fun _ _ _ => rfl, rfl⟩

/-! ### Controller (process supervisor) -/

/-- An operating-system process handle (a `Popen` instance), identified by
pid. -/
abbrev Proc := Nat

/-- Per-instance state of a `Controller`: the `alive` flag and the `process`
handle, `None` when stopped. -/
structure ControllerState where
  alive : Bool
  process : Option Proc
deriving DecidableEq

/-- One supervised controller together with the process-wide state its
operations act on: the class-level `_active_processes` registry and the set
of operating-system processes actually running. -/
structure SupervisorSys where
  ctrl : ControllerState
  active_processes : List Proc
  running : List Proc
deriving DecidableEq

/-- Modelled from the spec: `sts.procutils.kill_procs` is code of this
repository that is not under `src/`.  Spec sections 4.4 and 7: `kill()`
terminates the underlying process and "must tolerate the process having
already exited"; killing an already-exited process is tolerated.  Modelled
as removing each supplied handle from the set of running processes; absent
(`None`) or already-exited handles are tolerated without error. -/
def kill_procs (procs : List (Option Proc)) (running : List Proc) : List Proc :=
  running.filter (fun r => decide (some r ∉ procs))

/-- `Controller._unregister_proc`: `self._active_processes.discard(proc)`;
discarding an absent element is a no-op. -/
def unregister_proc (reg : List Proc) : Option Proc → List Proc
  | none => reg
  | some p => reg.filter (fun q => decide (q ≠ p))

/-- `Controller.kill`: log the event, `kill_procs([self.process])`,
unregister the handle from `_active_processes`, set `alive = False`, clear
the handle. -/
def Controller.kill (s : SupervisorSys) : SupervisorSys :=
  { ctrl := { alive := false, process := none },
    active_processes := unregister_proc s.active_processes s.ctrl.process,
    running := kill_procs [s.ctrl.process] s.running }

theorem kill_procs_none_handle (r : List Proc) : kill_procs [none] r = r := by
  unfold kill_procs
  rw [List.filter_eq_self]
  intro a _
  simp

/-- Membership of an optional process handle in a process list; a cleared
handle is in no list. -/
def optMemProc : Option Proc → List Proc → Bool
  | none, _ => false
  | some p, l => decide (p ∈ l)

/-- Claim C6: `Controller.kill` is idempotent — a second `kill` leaves the
whole supervisor state (controller, registry, running processes) unchanged
and raises no error (it is a total function); after a `kill` the flag is
down, the handle is cleared, and the killed handle is neither registered in
`_active_processes` nor among the running processes. -/
theorem controller_kill_idempotent (s : SupervisorSys) :
    Controller.kill (Controller.kill s) = Controller.kill s
    ∧ (Controller.kill s).ctrl.alive = false
    ∧ (Controller.kill s).ctrl.process = none
    ∧ optMemProc s.ctrl.process (Controller.kill s).active_processes = false
    ∧ optMemProc s.ctrl.process (Controller.kill s).running = false := by
  refine ⟨?_, rfl, rfl, ?_, ?_⟩
  · simp [Controller.kill, unregister_proc, kill_procs_none_handle]
  · cases hp : s.ctrl.process with
    | none => rfl
    | some p =>
      simp [optMemProc, Controller.kill, hp, unregister_proc, List.mem_filter]
  · cases hp : s.ctrl.process with
    | none => rfl
    | some p =>
      simp [optMemProc, Controller.kill, hp, kill_procs, List.mem_filter]

/-! ### Link -/

/-- An `ofp_phy_port` descriptor held in a switch's port table; `hw_addr`
distinguishes descriptors of different switches that share a port number. -/
structure OfpPhyPort where
  port_no : Nat
  hw_addr : Nat
deriving DecidableEq

/-- A software switch as seen by `Link.__init__`: its dpid and its port
table, a dict from port number to `ofp_phy_port` descriptor. -/
structure Switch where
  dpid : Nat
  ports : List (Nat × OfpPhyPort)
deriving DecidableEq

/-- A port argument to `Link.__init__`: either a raw port number or an
`ofp_phy_port` descriptor (the two types the constructor dispatches on). -/
inductive PortArg where
  | num (n : Nat)
  | port (p : OfpPhyPort)
deriving DecidableEq

/-- A constructed `Link`: directed edge over the four stored fields. -/
structure Link where
  start_software_switch : Switch
  start_port : OfpPhyPort
  end_software_switch : Switch
  end_port : OfpPhyPort
deriving DecidableEq

/-- Port-number resolution inside `Link.__init__` (entities.py lines
155-160): the membership assertion is made against `checkSw` — the START
switch for both ports in the source (lines 156 and 159) — while the
descriptor is read from `ownSw`'s table: the start switch for `start_port`
(line 157) but the END switch for `end_port` (line 160), a read that raises
`KeyError` when it misses.  A descriptor argument passes through unchanged. -/
def resolvePort (checkSw ownSw : Switch) : PortArg → Except PyErr OfpPhyPort
  | PortArg.num n =>
    if PyDict.mem checkSw.ports n then
      match PyDict.get? ownSw.ports n with
      | some p => Except.ok p
      | none => Except.error PyErr.keyError
    else Except.error PyErr.assertionError
  | PortArg.port p => Except.ok p

/-- `Link.__init__`: resolve `start_port` (checked against and read from the
start switch), then `end_port` (checked against the start switch but read
from the end switch); the subsequent `assert_type` checks are enforced by the
embedding's types. -/
def mkLink (ssw : Switch) (sp : PortArg) (esw : Switch) (ep : PortArg) :
    Except PyErr Link :=
  match resolvePort ssw ssw sp with
  | Except.error e => Except.error e
  | Except.ok start_port =>
    match resolvePort ssw esw ep with
    | Except.error e => Except.error e
    | Except.ok end_port =>
      Except.ok { start_software_switch := ssw, start_port := start_port,
                  end_software_switch := esw, end_port := end_port }

/-- `Link.__eq__`: structural equality over the four fields. -/
def linkEq (a b : Link) : Bool :=
  decide (a.start_software_switch = b.start_software_switch)
  && decide (a.start_port = b.start_port)
  && decide (a.end_software_switch = b.end_software_switch)
  && decide (a.end_port = b.end_port)

/-- `Link.reversed_link`: construct, via `Link.__init__`, the link in the
opposite direction; both port arguments are already descriptors. -/
def reversed_link (l : Link) : Except PyErr Link :=
  mkLink l.end_software_switch (PortArg.port l.end_port)
    l.start_software_switch (PortArg.port l.start_port)

/-- Claim C7, amended: a numeric `end_port` is validated against the START
switch's port table (assertion failure when absent there), but the stored
descriptor is read from the END switch's table (a `KeyError` when absent
there); a numeric `start_port` is validated against and read from the start
switch's table. -/
theorem link_port_number_resolution (ssw esw : Switch) (p0 : OfpPhyPort) (n m : Nat) :
    (PyDict.mem ssw.ports n = false →
      mkLink ssw (PortArg.port p0) esw (PortArg.num n) =
        Except.error PyErr.assertionError)
    ∧ (∀ q, PyDict.mem ssw.ports n = true → PyDict.get? esw.ports n = some q →
        mkLink ssw (PortArg.port p0) esw (PortArg.num n) =
          Except.ok ⟨ssw, p0, esw, q⟩)
    ∧ (PyDict.mem ssw.ports n = true → PyDict.get? esw.ports n = none →
        mkLink ssw (PortArg.port p0) esw (PortArg.num n) =
          Except.error PyErr.keyError)
    ∧ (PyDict.mem ssw.ports m = false →
      mkLink ssw (PortArg.num m) esw (PortArg.port p0) =
        Except.error PyErr.assertionError)
    ∧ (∀ q, PyDict.get? ssw.ports m = some q →
        mkLink ssw (PortArg.num m) esw (PortArg.port p0) =
          Except.ok ⟨ssw, q, esw, p0⟩) := by
  refine ⟨?_, ?_, ?_, ?_, ?_⟩
  · intro h
    simp [mkLink, resolvePort, h]
  · intro q h1 h2
    simp [mkLink, resolvePort, h1, h2]
  · intro h1 h2
    simp [mkLink, resolvePort, h1, h2]
  · intro h
    simp [mkLink, resolvePort, h]
  · intro q h
    have hm : PyDict.mem ssw.ports m = true := by simp [PyDict.mem, h]
    simp [mkLink, resolvePort, hm, h]

/-- Start switch with ports 1 and 5; its descriptor for port 5. -/
def portP1 : OfpPhyPort := ⟨5, 100⟩

/-- End switch's distinct descriptor for the same port number 5. -/
def portP2 : OfpPhyPort := ⟨5, 200⟩

/-- A descriptor used directly as the other port argument. -/
def portQ : OfpPhyPort := ⟨1, 10⟩

def swStart : Switch := ⟨1, [(1, portQ), (5, portP1)]⟩

def swEnd : Switch := ⟨2, [(5, portP2)]⟩

/-- Claim C7, counterexample: supplying `end_port = 5` where the start
switch's table maps 5 to `portP1` and the end switch's table maps 5 to
`portP2` yields a Link whose `end_port` is `portP2`, not the start switch's
descriptor — so `end_port` is NOT resolved against the start switch's port
table. -/
theorem link_end_port_cex :
    mkLink swStart (PortArg.port portQ) swEnd (PortArg.num 5) =
      Except.ok ⟨swStart, portQ, swEnd, portP2⟩
    ∧ PyDict.get? swStart.ports 5 = some portP1
    ∧ portP2 ≠ portP1 := by
  refine ⟨rfl, by decide, by decide⟩

/-- Witness for `link_port_number_resolution` at concrete inputs. -/
theorem link_port_number_resolution_witness :
    mkLink swStart (PortArg.port portQ) swEnd (PortArg.num 5) =
      Except.ok ⟨swStart, portQ, swEnd, portP2⟩
    ∧ mkLink swStart (PortArg.num 1) swEnd (PortArg.port portP2) =
      Except.ok ⟨swStart, portQ, swEnd, portP2⟩
    ∧ mkLink swStart (PortArg.port portQ) swEnd (PortArg.num 7) =
      Except.error PyErr.assertionError :=
  ⟨(link_port_number_resolution swStart swEnd portQ 5 0).2.1 portP2
      (by decide) (by decide),
   (link_port_number_resolution swStart swEnd portP2 0 1).2.2.2.2 portQ
      (by decide),
   (link_port_number_resolution swStart swEnd portQ 7 0).1 (by decide)⟩

/-- Claim C9: reversing a Link twice (each reversal re-runs the constructor
on the stored descriptors, which always succeeds) gives back a Link that is
structurally equal to the original under `Link.__eq__`. -/
theorem reversed_reversed_structurally_equal (l : Link) :
    ∃ l1 l2, reversed_link l = Except.ok l1 ∧ reversed_link l1 = Except.ok l2
      ∧ linkEq l2 l = true := by
  refine ⟨⟨l.end_software_switch, l.end_port,
           l.start_software_switch, l.start_port⟩, l, rfl, rfl, ?_⟩
  simp [linkEq]

/-! ### HostInterface -/

/-- A hardware (Ethernet) address, observed through `toInt`. -/
structure EthAddr where
  toInt : Nat
deriving DecidableEq

/-- An IP address, observed through `toUnsignedN`. -/
structure IpAddr where
  toUnsignedN : Nat
deriving DecidableEq

/-- `HostInterface`: hardware address, the IP list as supplied, and a name. -/
structure HostInterface where
  hw_addr : EthAddr
  ips : List IpAddr
  name : String
deriving DecidableEq

/-- `HostInterface.__eq__`: reject on differing hardware-address ints; then
for each own IP, reject when its unsigned value is absent from the other's
unsigned values; then reject on differing list lengths; then reject on
differing names; otherwise accept. -/
def hostInterfaceEq (a b : HostInterface) : Bool :=
  if a.hw_addr.toInt ≠ b.hw_addr.toInt then false
  else if a.ips.any
      (fun ip => decide (ip.toUnsignedN ∉ b.ips.map IpAddr.toUnsignedN)) then false
  else if b.ips.length ≠ a.ips.length then false
  else if a.name ≠ b.name then false
  else true

/-- Claim C8's asserted equality condition, following the spec's words: same
name, same hardware address, and IP sets identical in size and membership
(the sets of unsigned IP values agree in both directions and the sizes
match), regardless of supply order. -/
def hostInterfaceSpecEqC8 (a b : HostInterface) : Bool :=
  decide (a.name = b.name) && decide (a.hw_addr.toInt = b.hw_addr.toInt)
  && decide (a.ips.length = b.ips.length)
  && (a.ips.map IpAddr.toUnsignedN).all
      (fun x => decide (x ∈ b.ips.map IpAddr.toUnsignedN))
  && (b.ips.map IpAddr.toUnsignedN).all
      (fun x => decide (x ∈ a.ips.map IpAddr.toUnsignedN))

/-- Claim C8, counterexample: with duplicated IPs the code's subset-plus-
length check is not set equality — `[1, 1]` versus `[1, 2]` (same hardware
address and name) compare EQUAL under `HostInterface.__eq__` although their
IP sets differ in membership, so the claimed if-and-only-if is false. -/
theorem host_interface_eq_cex :
    hostInterfaceEq ⟨⟨1⟩, [⟨1⟩, ⟨1⟩], ""⟩ ⟨⟨1⟩, [⟨1⟩, ⟨2⟩], ""⟩ = true
    ∧ hostInterfaceSpecEqC8 ⟨⟨1⟩, [⟨1⟩, ⟨1⟩], ""⟩ ⟨⟨1⟩, [⟨1⟩, ⟨2⟩], ""⟩ = false := by
  refine ⟨by decide, by decide⟩

/-- Claim C8, amended: `A == B` holds iff the hardware-address ints agree,
every IP of `A` occurs by unsigned value among `B`'s IPs, the IP lists have
equal length, and the names agree; in particular interfaces whose IP lists
are permutations of each other (equal IP sets supplied in different orders,
duplicates included) compare equal — but mere size-and-membership equality of
the IP sets does not characterize `==` when lists contain duplicates. -/
theorem host_interface_eq_characterization (a b : HostInterface) :
    (hostInterfaceEq a b = true ↔
      (a.hw_addr.toInt = b.hw_addr.toInt
        ∧ (∀ ip ∈ a.ips, ip.toUnsignedN ∈ b.ips.map IpAddr.toUnsignedN)
        ∧ b.ips.length = a.ips.length
        ∧ a.name = b.name))
    ∧ ((a.hw_addr.toInt = b.hw_addr.toInt ∧ a.name = b.name
          ∧ List.Perm (a.ips.map IpAddr.toUnsignedN) (b.ips.map IpAddr.toUnsignedN)) →
        hostInterfaceEq a b = true) := by
  have hiff : hostInterfaceEq a b = true ↔
      (a.hw_addr.toInt = b.hw_addr.toInt
        ∧ (∀ ip ∈ a.ips, ip.toUnsignedN ∈ b.ips.map IpAddr.toUnsignedN)
        ∧ b.ips.length = a.ips.length
        ∧ a.name = b.name) := by
    unfold hostInterfaceEq
    split_ifs with h1 h2 h3 h4
    · simp only [false_iff]
      rintro ⟨hh, -, -, -⟩
      exact h1 hh
    · simp only [false_iff]
      rintro ⟨-, hmem, -, -⟩
      rw [List.any_eq_true] at h2
      obtain ⟨ip, hip, hdec⟩ := h2
      rw [decide_eq_true_eq] at hdec
      exact hdec (hmem ip hip)
    · simp only [false_iff]
      rintro ⟨-, -, hlen, -⟩
      exact h3 hlen
    · simp only [false_iff]
      rintro ⟨-, -, -, hname⟩
      exact h4 hname
    · simp only [true_iff]
      refine ⟨not_not.mp h1, ?_, not_not.mp h3, not_not.mp h4⟩
      intro ip hip
      by_contra hn
      exact h2 (List.any_eq_true.mpr ⟨ip, hip, decide_eq_true hn⟩)
  refine ⟨hiff, ?_⟩
  rintro ⟨h1, h4, hperm⟩
  refine hiff.mpr ⟨h1, ?_, ?_, h4⟩
  · intro ip hip
    exact hperm.mem_iff.mp (List.mem_map_of_mem IpAddr.toUnsignedN hip)
  · have hl := hperm.length_eq
    simpa using hl.symm

/-- Witness for `host_interface_eq_characterization`: the same IP set
supplied in two different orders compares equal. -/
theorem host_interface_eq_characterization_witness :
    hostInterfaceEq ⟨⟨3⟩, [⟨1⟩, ⟨2⟩], ""⟩ ⟨⟨3⟩, [⟨2⟩, ⟨1⟩], ""⟩ = true :=
  (host_interface_eq_characterization ⟨⟨3⟩, [⟨1⟩, ⟨2⟩], ""⟩
    ⟨⟨3⟩, [⟨2⟩, ⟨1⟩], ""⟩).2 ⟨rfl, rfl, by decide⟩

end Sts
